import Mathlib

/-!
Verification of the vcf-proof-mvp zero-knowledge set-membership engine.

The Go source builds gnark arithmetic circuits over the BN254 scalar field.
The circuit definitions below are shallow embeddings of the `Define` methods:
a circuit value is the witness assignment (one record per gnark struct), and
its `constraint` proposition is the conjunction of the `AssertIsEqual` calls
issued by `Define`.  The circuit statements are proved over an arbitrary
commutative ring (with `IsDomain` where the argument needs a field without
zero divisors); the BN254 scalar field is a prime field, hence an integral
domain, so every such statement instantiates to it.  Concrete evaluations are
run over the integers, which is how the Go callers populate the witnesses.
-/

namespace VcfProof

/-- Embeds `ChromosomeCircuit` (internal chromosome proof source and its
earlier revision): one public target and five private chromosome slots. -/
structure ChromosomeCircuit (F : Type) where
  TargetChromosome : F
  Chromosome1 : F
  Chromosome2 : F
  Chromosome3 : F
  Chromosome4 : F
  Chromosome5 : F

/-- The product of differences computed by `ChromosomeCircuit.Define`:
diff_i = Chromosome_i - TargetChromosome, multiplied left to right, exactly
as `api.Mul(diff1, diff2, diff3, diff4, diff5)` associates.  The sum of
squares that `Define` also computes is discarded (assigned to the blank
identifier) and generates no assertion, so it does not appear here. -/
def ChromosomeCircuit.diffProduct {F : Type} [CommRing F] (c : ChromosomeCircuit F) : F :=
  (c.Chromosome1 - c.TargetChromosome) * (c.Chromosome2 - c.TargetChromosome) *
    (c.Chromosome3 - c.TargetChromosome) * (c.Chromosome4 - c.TargetChromosome) *
    (c.Chromosome5 - c.TargetChromosome)

/-- The single constraint asserted by `ChromosomeCircuit.Define`:
`api.AssertIsEqual(product, 0)`. -/
def ChromosomeCircuit.constraint {F : Type} [CommRing F] (c : ChromosomeCircuit F) : Prop :=
  c.diffProduct = 0

instance instDecChromosomeConstraint {F : Type} [CommRing F] [DecidableEq F]
    (c : ChromosomeCircuit F) : Decidable c.constraint :=
  decidable_of_iff (c.diffProduct = 0) Iff.rfl

/-- Embeds `EyeColorCircuit` (cmd/eye_color.go): public claimed color,
private genotype at rs12913832. -/
structure EyeColorCircuit (F : Type) where
  ClaimedColor : F
  Genotype : F

/-- The single constraint asserted by `EyeColorCircuit.Define`:
`api.AssertIsEqual(c.ClaimedColor, api.Add(api.Mul(c.Genotype, 1), 1))`. -/
def EyeColorCircuit.constraint {F : Type} [CommRing F] (c : EyeColorCircuit F) : Prop :=
  c.ClaimedColor = c.Genotype * 1 + 1

instance instDecEyeColorConstraint {F : Type} [CommRing F] [DecidableEq F]
    (c : EyeColorCircuit F) : Decidable c.constraint :=
  decidable_of_iff (c.ClaimedColor = c.Genotype * 1 + 1) Iff.rfl

/-- A proof bundle: the serialized proof together with the public part of the
witness.  Only the public value matters at this level of abstraction. -/
structure ProofBundle (F : Type) where
  publicValue : F

/-- Modelled from the spec: the groth16 backend (gnark) is an external
dependency, specified only at its interface boundary (spec sections 4.3
and 6).  Per that contract, `Prove` fails with a witness error exactly when
the witness does not satisfy the compiled constraints, and otherwise
produces a bundle carrying the public witness. -/
def backendProve {F : Type} (constraintSat : Prop) [Decidable constraintSat]
    (publicValue : F) : Except String (ProofBundle F) :=
  if constraintSat then .ok (ProofBundle.mk publicValue) else .error "witness error"

/-- Modelled from the spec: per the backend contract, `Verify` accepts any
bundle produced by `Prove` under the matching key pair (completeness). -/
def backendVerify {F : Type} (_bundle : ProofBundle F) : Bool :=
  true

/-- One slot of the padding loop in the chromosome `main`:
`if i < len(chromosomes) then chromosomes[i] else 0`. -/
def padSlot (chromosomes : List Int) (i : Nat) : Int :=
  if i < chromosomes.length then chromosomes.getD i 0 else 0

/-- The padding loop: `paddedChromosomes` always has exactly five entries,
the first `len(chromosomes)` (capped at five) copied from the input and the
rest fixed to the sentinel `0`. -/
def padChromosomes (chromosomes : List Int) : List Int :=
  [padSlot chromosomes 0, padSlot chromosomes 1, padSlot chromosomes 2,
    padSlot chromosomes 3, padSlot chromosomes 4]

/-- The witness literal built by the chromosome `main` from the target and
the padded list. -/
def mkChromosomeWitness (target : Int) (padded : List Int) : ChromosomeCircuit Int :=
  { TargetChromosome := target
    Chromosome1 := padded.getD 0 0
    Chromosome2 := padded.getD 1 0
    Chromosome3 := padded.getD 2 0
    Chromosome4 := padded.getD 3 0
    Chromosome5 := padded.getD 4 0 }

/-- The demo insertion of the earlier chromosome `main` revision: when no
padded slot equals the target, slot 0 is overwritten with the target
("Adding target chromosome to sample data for demonstration"). -/
def demoAdjust (target : Int) (padded : List Int) : List Int :=
  if target ∈ padded then padded else padded.set 0 target

/-- The prove step of the later chromosome `main` (no demo insertion):
pad, build the witness, call the backend prover. -/
def part5Prove (target : Int) (chromosomes : List Int) : Except String (ProofBundle Int) :=
  backendProve (mkChromosomeWitness target (padChromosomes chromosomes)).constraint target

/-- The prove step of the earlier chromosome `main` revision, which first
applies the demo insertion to the padded list. -/
def part4Prove (target : Int) (chromosomes : List Int) : Except String (ProofBundle Int) :=
  backendProve
    (mkChromosomeWitness target (demoAdjust target (padChromosomes chromosomes))).constraint
    target

/-- Setup-then-Prove followed by Verify for the later chromosome `main`:
true when proving succeeded and the produced bundle verifies. -/
def chromosomeProveVerify (target : Int) (chromosomes : List Int) : Bool :=
  match part5Prove target chromosomes with
  | .ok bundle => backendVerify bundle
  | .error _ => false

/-- The genotype switch of `extractEyeColorGenotype` (cmd/eye_color.go):
the fixed vocabulary of diploid calls at rs12913832, every other call is an
unrecognized-value error. -/
def encodeGenotype (gt : String) : Except String Int :=
  if gt = "0/0" then .ok 0
  else if gt = "0/1" then .ok 1
  else if gt = "1/0" then .ok 1
  else if gt = "1/1" then .ok 2
  else .error ("unknown genotype: " ++ gt)

/-- A VCF variant at the granularity the engine consumes: its rsID label and
its genotype call.  Produced by the external vcfgo collaborator. -/
structure VCFRecord where
  rsid : String
  genotypeCall : String

/-- The record scan of `extractEyeColorGenotype`: the first record whose ID
is rs12913832 is decoded by the genotype switch; exhaustion is a not-found
error. -/
def extractEyeColorGenotype (records : List VCFRecord) : Except String Int :=
  match records with
  | [] => .error "rs12913832 not found in VCF"
  | record :: rest =>
    if record.rsid = "rs12913832" then encodeGenotype record.genotypeCall
    else extractEyeColorGenotype rest

/-- Embeds `genotypeToColor` (cmd/eye_color.go): the off-circuit mapping
from genotype code to eye color category, default 0. -/
def genotypeToColor (genotype : Int) : Int :=
  if genotype = 0 then 1
  else if genotype = 1 then 2
  else if genotype = 2 then 3
  else 0

/-- Models `strings.TrimPrefix(chrStr, "chr")`: remove the leading "chr"
when present, otherwise return the label unchanged. -/
def trimChr (s : String) : String :=
  match s.data with
  | 'c' :: 'h' :: 'r' :: rest => String.mk rest
  | _ => s

/-- Digit accumulation of `strconv.Atoi`: at least one character, all
characters decimal digits, accumulated in base 10. -/
def parseDigits (cs : List Char) : Option Nat :=
  match cs with
  | [] => none
  | _ =>
    cs.foldl
      (fun acc c =>
        acc.bind (fun n => if c.isDigit then some (10 * n + (c.toNat - 48)) else none))
      (some 0)

/-- Models `strconv.Atoi`: an optional sign followed by decimal digits,
rejected when the value falls outside the 64-bit signed integer range. -/
def atoi (s : String) : Option Int :=
  let parsed : Option Int :=
    match s.toList with
    | '+' :: rest => (parseDigits rest).map (fun n => (n : Int))
    | '-' :: rest => (parseDigits rest).map (fun n => -(n : Int))
    | cs => (parseDigits cs).map (fun n => (n : Int))
  parsed.bind (fun n => if -(2 ^ 63) ≤ n ∧ n < 2 ^ 63 then some n else none)

/-- The parse applied to one chromosome label by `extractChromosomeNumbers`:
trim the "chr" name, then `Atoi`. -/
def parseChromosomeLabel (label : String) : Option Int :=
  atoi (trimChr label)

/-- The read loop of `extractChromosomeNumbers`: for each variant label, a
successful parse is appended and counted, a failed parse is skipped; the
loop stops as soon as `count >= maxCount` holds after the append check. -/
def extractChromosomeLoop (labels : List String) (count maxCount : Int) : List Int :=
  match labels with
  | [] => []
  | label :: rest =>
    match parseChromosomeLabel label with
    | some chrNum =>
      if count + 1 ≥ maxCount then [chrNum]
      else chrNum :: extractChromosomeLoop rest (count + 1) maxCount
    | none =>
      if count ≥ maxCount then []
      else extractChromosomeLoop rest count maxCount

/-- The outcome of a Go computation that can end in a runtime panic:
calling through a nil embedded interface, or allocating a slice with a
negative capacity. -/
inductive CallOutcome (α : Type) where
  | panicked
  | returned (val : α)
deriving DecidableEq

/-- Embeds `extractChromosomeNumbers`, at the granularity of the chromosome
labels the external vcfgo reader yields in file order.  Before the read
loop the function allocates the result slice with
`make([]int, 0, maxCount)`, which is a runtime panic when the capacity is
negative, so a negative cap never reaches the loop. -/
def extractChromosomeNumbers (labels : List String) (maxCount : Int) :
    CallOutcome (List Int) :=
  if maxCount < 0 then .panicked
  else .returned (extractChromosomeLoop labels 0 maxCount)

/-- The method set of the `Proof` interface (internal/proofs). -/
structure GoInterface where
  generate : String → String → String → Except String Unit
  verify : String → String → Except String Bool

/-- The four proof type identifiers the dispatcher recognizes. -/
inductive ProofKind where
  | chromosome
  | eyecolor
  | brca1
  | herc2
deriving DecidableEq

/-- A dispatched proof value.  Each concrete type in internal/proofs is a
struct whose only field is an embedded `Proof` interface; the dispatcher
builds the values with struct literals that leave that field nil, modelled
here as `none`. -/
structure ProofValue where
  kind : ProofKind
  embeddedProof : Option GoInterface

/-- Models `strings.ToLower` on the ASCII identifiers the dispatcher
compares against. -/
def toLowerAscii (s : String) : String :=
  String.mk (s.data.map Char.toLower)

/-- Embeds `createProof` (cmd/cli main): lowercase the identifier, return
the matching proof value, or an unknown-proof-type error. -/
def createProof (proofType : String) : Except String ProofValue :=
  let t := toLowerAscii proofType
  if t = "chromosome" then .ok (ProofValue.mk .chromosome none)
  else if t = "eyecolor" then .ok (ProofValue.mk .eyecolor none)
  else if t = "brca1" then .ok (ProofValue.mk .brca1 none)
  else if t = "herc2" then .ok (ProofValue.mk .herc2 none)
  else
    .error ("unknown proof type: " ++ proofType ++
      ". Supported types: chromosome, eyecolor, brca1")

/-- Calling `Generate` on a dispatched proof value: dispatches through the
embedded interface field, which panics when that field is nil. -/
def ProofValue.callGenerate (p : ProofValue) (vcfPath provingKeyPath outputPath : String) :
    CallOutcome (Except String Unit) :=
  match p.embeddedProof with
  | none => .panicked
  | some impl => .returned (impl.generate vcfPath provingKeyPath outputPath)

/-- Calling `Verify` on a dispatched proof value, same dispatch rule. -/
def ProofValue.callVerify (p : ProofValue) (verifyingKeyPath proofPath : String) :
    CallOutcome (Except String Bool) :=
  match p.embeddedProof with
  | none => .panicked
  | some impl => .returned (impl.verify verifyingKeyPath proofPath)

/-- The dispatch step of `handleGenerate`: a `createProof` error exits the
process before `proof.Generate` (and hence before any cryptographic work)
is invoked; otherwise `Generate` is called on the dispatched value. -/
def generateDispatch (proofType vcfPath outputPath : String) :
    Except String (CallOutcome (Except String Unit)) :=
  match createProof proofType with
  | .error e => .error e
  | .ok p => .ok (p.callGenerate vcfPath "" outputPath)

/-- The prove step of the eye color `main`: build the witness from the
claimed color and the genotype, call the backend prover. -/
def eyeProve (claimedColor genotype : Int) : Except String (ProofBundle Int) :=
  backendProve (EyeColorCircuit.mk claimedColor genotype).constraint claimedColor

/-- Setup-then-Prove followed by Verify for the eye color `main`. -/
def eyeProveVerify (claimedColor genotype : Int) : Bool :=
  match eyeProve claimedColor genotype with
  | .ok bundle => backendVerify bundle
  | .error _ => false

/-! ## Helper lemmas -/

/-- Over an integral domain the asserted product vanishes exactly when some
private slot equals the public target. -/
theorem chromosomeConstraint_iff {F : Type} [CommRing F] [IsDomain F]
    (c : ChromosomeCircuit F) :
    c.constraint ↔
      (c.Chromosome1 = c.TargetChromosome ∨ c.Chromosome2 = c.TargetChromosome ∨
        c.Chromosome3 = c.TargetChromosome ∨ c.Chromosome4 = c.TargetChromosome ∨
        c.Chromosome5 = c.TargetChromosome) := by
  unfold ChromosomeCircuit.constraint ChromosomeCircuit.diffProduct
  rw [mul_eq_zero, mul_eq_zero, mul_eq_zero, mul_eq_zero]
  simp only [sub_eq_zero]
  tauto

/-- Every slot of the padded list differs from a target that is at least 1
and differs from every real candidate: real slots by assumption, sentinel
slots because the sentinel 0 is below 1. -/
theorem padSlot_ne_target (target : Int) (chromosomes : List Int)
    (htarget : 1 ≤ target) (hne : ∀ c ∈ chromosomes, c ≠ target) (i : Nat) :
    padSlot chromosomes i ≠ target := by
  unfold padSlot
  split
  · next h =>
    have hmem : chromosomes.getD i 0 ∈ chromosomes := by
      rw [List.getD_eq_getElem chromosomes 0 h]
      exact List.getElem_mem h
    exact hne _ hmem
  · omega

/-- A target at least 1 that differs from every real candidate fails the
padded circuit (no length bound needed: extra candidates are truncated). -/
theorem pad_constraint_not_sat (target : Int) (chromosomes : List Int)
    (htarget : 1 ≤ target) (hne : ∀ c ∈ chromosomes, c ≠ target) :
    ¬ (mkChromosomeWitness target (padChromosomes chromosomes)).constraint := by
  rw [chromosomeConstraint_iff]
  have h0 := padSlot_ne_target target chromosomes htarget hne 0
  have h1 := padSlot_ne_target target chromosomes htarget hne 1
  have h2 := padSlot_ne_target target chromosomes htarget hne 2
  have h3 := padSlot_ne_target target chromosomes htarget hne 3
  have h4 := padSlot_ne_target target chromosomes htarget hne 4
  simp only [mkChromosomeWitness, padChromosomes, List.getD]
  intro hdisj
  rcases hdisj with h | h | h | h | h <;> simp_all

/-- A target occurring among the padded slots satisfies the circuit. -/
theorem pad_constraint_of_mem (target : Int) (chromosomes : List Int)
    (h : target ∈ padChromosomes chromosomes) :
    (mkChromosomeWitness target (padChromosomes chromosomes)).constraint := by
  rw [chromosomeConstraint_iff]
  simp only [padChromosomes, List.mem_cons, List.not_mem_nil, or_false] at h
  simp only [mkChromosomeWitness, padChromosomes, List.getD]
  simp_all [eq_comm]

/-- The loop of `extractChromosomeNumbers` with the counter strictly below
the cap collects the next parsable labels, truncated to the remaining
budget. -/
theorem extractLoop_eq_take_filterMap (labels : List String) (count maxCount : Int)
    (h : count < maxCount) :
    extractChromosomeLoop labels count maxCount =
      (labels.filterMap parseChromosomeLabel).take (maxCount - count).toNat := by
  induction labels generalizing count with
  | nil => simp [extractChromosomeLoop]
  | cons label rest ih =>
    cases hp : parseChromosomeLabel label with
    | some chrNum =>
      by_cases hc : count + 1 ≥ maxCount
      · have ht : (maxCount - count).toNat = 1 := by omega
        simp [extractChromosomeLoop, hp, hc, List.filterMap_cons_some hp, ht]
      · have hlt : count + 1 < maxCount := by omega
        have ht : (maxCount - count).toNat = (maxCount - (count + 1)).toNat + 1 := by omega
        simp [extractChromosomeLoop, hp, hc, List.filterMap_cons_some hp, ht,
          ih (count + 1) hlt]
    | none =>
      have hnot : ¬ count ≥ maxCount := by omega
      simp [extractChromosomeLoop, hp, hnot, List.filterMap_cons_none hp, ih count h]

/-! ## Claim theorems -/

/-- C1: the set-membership constraint, the product of the five differences
equal to zero, holds over the scalar field (any integral domain, which the
BN254 scalar field is) iff the target equals at least one candidate slot;
consequently Setup-then-Prove followed by Verify returns true for every
target present in the padded private set. -/
theorem chromosome_membership_sound_complete :
    (∀ (F : Type) [CommRing F] [IsDomain F] (c : ChromosomeCircuit F),
      c.constraint ↔
        (c.Chromosome1 = c.TargetChromosome ∨ c.Chromosome2 = c.TargetChromosome ∨
          c.Chromosome3 = c.TargetChromosome ∨ c.Chromosome4 = c.TargetChromosome ∨
          c.Chromosome5 = c.TargetChromosome)) ∧
    (∀ (target : Int) (chromosomes : List Int),
      target ∈ padChromosomes chromosomes →
        chromosomeProveVerify target chromosomes = true) := by
  constructor
  · intro F _ _ c
    exact chromosomeConstraint_iff c
  · intro target chromosomes h
    unfold chromosomeProveVerify part5Prove backendProve
    rw [if_pos (pad_constraint_of_mem target chromosomes h)]
    rfl

/-- Witness for C1 at concrete scenario A: target 22, real candidates
22, 7, 3, 1, padded with the sentinel 0. -/
theorem chromosome_membership_sound_complete_witness :
    (ChromosomeCircuit.mk 22 22 7 3 1 0 : ChromosomeCircuit Int).constraint ∧
      chromosomeProveVerify 22 [22, 7, 3, 1] = true :=
  ⟨(chromosome_membership_sound_complete.1 Int (ChromosomeCircuit.mk 22 22 7 3 1 0)).mpr
      (Or.inl rfl),
    chromosome_membership_sound_complete.2 22 [22, 7, 3, 1] (by decide)⟩

/-- C2: padding with the sentinel 0 never satisfies the circuit by itself:
for a target at least 1 and fewer than five real candidates, all different
from the target, the padded witness fails the constraint. -/
theorem padding_no_false_positive (target : Int) (chromosomes : List Int)
    (htarget : 1 ≤ target) (_hlen : chromosomes.length < 5)
    (hne : ∀ c ∈ chromosomes, c ≠ target) :
    ¬ (mkChromosomeWitness target (padChromosomes chromosomes)).constraint :=
  pad_constraint_not_sat target chromosomes htarget hne

/-- Witness for C2: target 7, three real candidates 1, 2, 3. -/
theorem padding_no_false_positive_witness :
    ¬ (mkChromosomeWitness 7 (padChromosomes [1, 2, 3])).constraint :=
  padding_no_false_positive 7 [1, 2, 3] (by decide) (by decide) (by decide)

/-- C3 counterexample: with private set 1..5 and target 22 the earlier main
revision overwrites slot 0 with the target before proving, so the prove
step succeeds and a proof bundle is produced even though 22 is absent. -/
theorem demo_insertion_proves_absent_target :
    (22 : Int) ∉ ([1, 2, 3, 4, 5] : List Int) ∧
      part4Prove 22 [1, 2, 3, 4, 5] = .ok (ProofBundle.mk 22) :=
  ⟨by decide, rfl⟩

/-- C3 amended: in the chromosome pipeline without the demo insertion, a
target at least 1 that differs from every extracted candidate makes the
backend prover fail with a witness error, so no proof bundle is produced. -/
theorem absent_target_prove_fails (target : Int) (chromosomes : List Int)
    (htarget : 1 ≤ target) (hne : ∀ c ∈ chromosomes, c ≠ target) :
    part5Prove target chromosomes = .error "witness error" := by
  unfold part5Prove backendProve
  rw [if_neg (pad_constraint_not_sat target chromosomes htarget hne)]

/-- Witness for C3: concrete scenario B, private set 1..5 and target 22. -/
theorem absent_target_prove_fails_witness :
    part5Prove 22 [1, 2, 3, 4, 5] = .error "witness error" :=
  absent_target_prove_fails 22 [1, 2, 3, 4, 5] (by decide) (by decide)

/-- C4: the eye color constraint holds exactly when the claimed category
equals the genotype plus 1; claimed category 2 with genotype 1 proves and
verifies true, claimed category 3 with genotype 1 fails at the prover. -/
theorem eye_constraint_iff_affine :
    (∀ (F : Type) [CommRing F] (claimed genotype : F),
      (EyeColorCircuit.mk claimed genotype).constraint ↔ claimed = genotype + 1) ∧
    eyeProveVerify 2 1 = true ∧ eyeProve 3 1 = .error "witness error" := by
  refine ⟨?_, rfl, rfl⟩
  intro F _ claimed genotype
  simp only [EyeColorCircuit.constraint, mul_one]

/-- C5: on the genotype domain 0, 1, 2 the off-circuit mapping and the
in-circuit affine mapping agree, both sending g to g + 1; the mapping is
injective on that three-element domain and maps it onto the categories
1, 2, 3. -/
theorem genotype_mapping_refinement :
    (∀ g ∈ ([0, 1, 2] : List Int),
      genotypeToColor g = g + 1 ∧
        ∀ claimed : Int,
          ((EyeColorCircuit.mk claimed g).constraint ↔ claimed = genotypeToColor g)) ∧
    (∀ g1 ∈ ([0, 1, 2] : List Int), ∀ g2 ∈ ([0, 1, 2] : List Int),
      genotypeToColor g1 = genotypeToColor g2 → g1 = g2) ∧
    ([0, 1, 2] : List Int).map genotypeToColor = [1, 2, 3] := by
  refine ⟨?_, ?_, by decide⟩
  · intro g hg
    fin_cases hg <;>
      exact ⟨by decide, fun claimed => by norm_num [EyeColorCircuit.constraint, genotypeToColor]⟩
  · intro g1 h1 g2 h2 heq
    fin_cases h1 <;> fin_cases h2 <;> revert heq <;> decide

/-- Witness for C5 at genotype 1. -/
theorem genotype_mapping_refinement_witness :
    genotypeToColor 1 = 1 + 1 ∧ ((1 : Int) = 1) :=
  ⟨(genotype_mapping_refinement.1 1 (by decide)).1,
    genotype_mapping_refinement.2.1 1 (by decide) 1 (by decide) rfl⟩

/-- C6: the genotype encoder maps exactly the fixed diploid vocabulary to
the codes 0, 1, 2 and fails with an unrecognized-value error on every other
genotype string. -/
theorem genotype_encoder_total_on_vocabulary :
    encodeGenotype "0/0" = .ok 0 ∧ encodeGenotype "0/1" = .ok 1 ∧
      encodeGenotype "1/0" = .ok 1 ∧ encodeGenotype "1/1" = .ok 2 ∧
      ∀ gt : String, gt ≠ "0/0" → gt ≠ "0/1" → gt ≠ "1/0" → gt ≠ "1/1" →
        encodeGenotype gt = .error ("unknown genotype: " ++ gt) := by
  refine ⟨rfl, rfl, rfl, rfl, ?_⟩
  intro gt h1 h2 h3 h4
  simp [encodeGenotype, h1, h2, h3, h4]

/-- Witness for C6 at the unrecognized call 2/2. -/
theorem genotype_encoder_total_on_vocabulary_witness :
    encodeGenotype "2/2" = .error ("unknown genotype: " ++ "2/2") :=
  genotype_encoder_total_on_vocabulary.2.2.2.2 "2/2" (by decide) (by decide) (by decide)
    (by decide)

/-- C7 counterexample: with cap 0 the allocation succeeds but the loop
still reads the first label and returns its parsed value, so the result
exceeds the cap. -/
theorem extract_cap_zero_exceeded :
    extractChromosomeNumbers ["chr1"] 0 = .returned [1] ∧
      ¬ (([1] : List Int).length ≤ 0) :=
  ⟨by decide, by decide⟩

/-- C7 amended: for a positive cap the extraction returns exactly the
parsable labels, in input order, truncated to the cap, and labels that do
not parse are skipped without failing the extraction; for a negative cap
the slice allocation panics before any label is read. -/
theorem extract_eq_take_filterMap (labels : List String) (maxCount : Int) :
    (1 ≤ maxCount →
      extractChromosomeNumbers labels maxCount =
        .returned ((labels.filterMap parseChromosomeLabel).take maxCount.toNat)) ∧
    (maxCount < 0 → extractChromosomeNumbers labels maxCount = .panicked) := by
  constructor
  · intro hmax
    have h := extractLoop_eq_take_filterMap labels 0 maxCount (by omega)
    have hnn : ¬ maxCount < 0 := by omega
    simp [extractChromosomeNumbers, hnn, h]
  · intro hneg
    simp [extractChromosomeNumbers, hneg]

/-- Witness for C7: three labels, one of them non-numeric, cap 10; and a
negative cap panicking at allocation. -/
theorem extract_eq_take_filterMap_witness :
    extractChromosomeNumbers ["chr1", "chrX", "2"] 10 =
        .returned
          (((["chr1", "chrX", "2"] : List String).filterMap parseChromosomeLabel).take
            (10 : Int).toNat) ∧
      extractChromosomeNumbers ["chr1"] (-1) = .panicked :=
  ⟨(extract_eq_take_filterMap ["chr1", "chrX", "2"] 10).1 (by decide),
    (extract_eq_take_filterMap ["chr1"] (-1)).2 (by decide)⟩

/-- C8: evaluation at the failing inputs: all four dispatchable proof types
carry a nil embedded interface, so both Generate and Verify panic at call
time, contradicting the claim that no dispatched operation panics. -/
theorem dispatched_proof_types_panic :
    createProof "chromosome" = .ok (ProofValue.mk .chromosome none) ∧
      (ProofValue.mk ProofKind.chromosome none).callGenerate "data/genome_example.vcf" ""
          "output/chromosome_proof.bin" = .panicked ∧
      (ProofValue.mk ProofKind.chromosome none).callVerify "output/chromosome_proof.bin.vk"
          "output/chromosome_proof.bin" = .panicked ∧
      createProof "eyecolor" = .ok (ProofValue.mk .eyecolor none) ∧
      (ProofValue.mk ProofKind.eyecolor none).callGenerate "data/genome_example.vcf" ""
          "output/eyecolor_proof.bin" = .panicked ∧
      (ProofValue.mk ProofKind.eyecolor none).callVerify "output/eyecolor_proof.bin.vk"
          "output/eyecolor_proof.bin" = .panicked ∧
      createProof "brca1" = .ok (ProofValue.mk .brca1 none) ∧
      (ProofValue.mk ProofKind.brca1 none).callGenerate "data/genome_example.vcf" ""
          "output/brca1_proof.bin" = .panicked ∧
      (ProofValue.mk ProofKind.brca1 none).callVerify "output/brca1_proof.bin.vk"
          "output/brca1_proof.bin" = .panicked ∧
      createProof "herc2" = .ok (ProofValue.mk .herc2 none) ∧
      (ProofValue.mk ProofKind.herc2 none).callGenerate "data/genome_example.vcf" ""
          "output/herc2_proof.bin" = .panicked ∧
      (ProofValue.mk ProofKind.herc2 none).callVerify "output/herc2_proof.bin.vk"
          "output/herc2_proof.bin" = .panicked :=
  ⟨rfl, rfl, rfl, rfl, rfl, rfl, rfl, rfl, rfl, rfl, rfl, rfl⟩

/-- C9 counterexample: the identifier CHROMOSOME is outside the closed set
as written, yet dispatch succeeds because the dispatcher lowercases the
identifier before comparing. -/
theorem uppercase_identifier_dispatches :
    ("CHROMOSOME" ∉ (["chromosome", "eyecolor", "brca1", "herc2"] : List String)) ∧
      createProof "CHROMOSOME" = .ok (ProofValue.mk .chromosome none) :=
  ⟨by decide, rfl⟩

/-- C9 amended: the dispatcher compares identifiers case-insensitively: an
identifier whose ASCII lowercase form is outside the closed set fails at
dispatch with the unknown-proof-type error, before Generate and hence any
cryptographic work is invoked; one whose lowercase form is in the set
dispatches to the corresponding proof value. -/
theorem dispatch_closed_set (s vcfPath outputPath : String) :
    (toLowerAscii s = "chromosome" → createProof s = .ok (ProofValue.mk .chromosome none)) ∧
    (toLowerAscii s = "eyecolor" → createProof s = .ok (ProofValue.mk .eyecolor none)) ∧
    (toLowerAscii s = "brca1" → createProof s = .ok (ProofValue.mk .brca1 none)) ∧
    (toLowerAscii s = "herc2" → createProof s = .ok (ProofValue.mk .herc2 none)) ∧
    (toLowerAscii s ∉ (["chromosome", "eyecolor", "brca1", "herc2"] : List String) →
      createProof s =
          .error
            ("unknown proof type: " ++ s ++ ". Supported types: chromosome, eyecolor, brca1") ∧
        generateDispatch s vcfPath outputPath =
          .error
            ("unknown proof type: " ++ s ++ ". Supported types: chromosome, eyecolor, brca1")) := by
  refine ⟨fun h => by simp [createProof, h], fun h => by simp [createProof, h],
    fun h => by simp [createProof, h], fun h => by simp [createProof, h], fun h => ?_⟩
  simp only [List.mem_cons, List.not_mem_nil, or_false, not_or] at h
  obtain ⟨h1, h2, h3, h4⟩ := h
  constructor
  · simp [createProof, h1, h2, h3, h4]
  · simp [generateDispatch, createProof, h1, h2, h3, h4]

/-- Witness for C9: a mixed-case known identifier dispatches, an unknown
identifier fails at dispatch. -/
theorem dispatch_closed_set_witness :
    createProof "Brca1" = .ok (ProofValue.mk .brca1 none) ∧
      createProof "foo" =
        .error ("unknown proof type: " ++ "foo" ++
          ". Supported types: chromosome, eyecolor, brca1") :=
  ⟨(dispatch_closed_set "Brca1" "data/genome.vcf" "out.bin").2.2.1 (by decide),
    ((dispatch_closed_set "foo" "data/genome.vcf" "out.bin").2.2.2.2 (by decide)).1⟩

/-- C10: heterozygous calls are symmetric in allele order: both orders map
to genotype code 1. -/
theorem heterozygous_order_symmetric :
    encodeGenotype "0/1" = .ok 1 ∧ encodeGenotype "1/0" = .ok 1 :=
  ⟨rfl, rfl⟩

end VcfProof
